import Mathlib

/-!
Shallow embedding of the `network-last-request` web component
(`docs/js/index.mjs`): the fetch/XHR interceptors, the request record they
capture, and the Display's body/HTML formatting and HTTP-text rendering.

JavaScript string operations used by the source (`trim`, `startsWith`,
`endsWith`, `includes`, `split('\n')`, the global replace of every adjacent
pair of a closing and an opening angle bracket, and two-space repetition)
are modelled executably over character lists so concrete runs reduce in the
kernel.
-/

namespace NetworkLastRequest

/-- Whitespace as JavaScript `trim` sees it, restricted to the ASCII
whitespace that can occur in this widget's strings. -/
def isWS (c : Char) : Bool := c = ' ' || c = '\n' || c = '\t' || c = '\r'

/-- Drop whitespace from both ends of a character list (JS `trim`). -/
def trimChars (l : List Char) : List Char :=
  ((l.dropWhile isWS).reverse.dropWhile isWS).reverse

/-- JS `String.prototype.trim`. -/
def jsTrim (s : String) : String := String.mk (trimChars s.data)

/-- `startsL p l` is true when `l` begins with the pattern `p`. -/
def startsL : List Char → List Char → Bool
  | [], _ => true
  | _ :: _, [] => false
  | a :: as, b :: bs => a = b && startsL as bs

/-- JS `String.prototype.startsWith`. -/
def startsWithJS (s p : String) : Bool := startsL p.data s.data

/-- JS `String.prototype.endsWith`. -/
def endsWithJS (s p : String) : Bool := startsL p.data.reverse s.data.reverse

/-- `occursL p l` is true when pattern `p` occurs somewhere in `l`
(JS `String.prototype.includes`). -/
def occursL (p : List Char) : List Char → Bool
  | [] => startsL p []
  | c :: rest => startsL p (c :: rest) || occursL p rest

/-- JS `String.prototype.includes`. -/
def includesJS (s p : String) : Bool := occursL p.data s.data

/-- Split a character list on newline characters (JS `split('\n')`). -/
def splitOnNL : List Char → List (List Char)
  | [] => [[]]
  | '\n' :: rest => [] :: splitOnNL rest
  | c :: rest =>
    match splitOnNL rest with
    | [] => [[c]]
    | l :: ls => (c :: l) :: ls

/-- The lines of a string, split on newline characters. -/
def linesOf (s : String) : List String := (splitOnNL s.data).map String.mk

/-- The global replacement of every adjacent closing/opening angle-bracket
pair by the same pair with a newline between them — the source's
`html.replace` with the two-character pattern, scanning left to right over
non-overlapping occurrences. -/
def insertBreaks : List Char → List Char
  | '>' :: '<' :: rest => '>' :: '\n' :: '<' :: insertBreaks rest
  | c :: rest => c :: insertBreaks rest
  | [] => []

/-- The request payload as the source sees it: absent (`undefined`), `null`,
a string, a `FormData`-like container of key/value entries, or any other
value carried with its default string conversion. -/
inductive JSBody where
  | undef
  | null
  | str (s : String)
  | formData (entries : List (String × String))
  | other (toStr : String)
deriving DecidableEq

/-- JS truthiness of a body value: `undefined`, `null` and the empty string
are falsy; the other modelled body values are truthy. -/
def JSBody.falsy : JSBody → Bool
  | JSBody.undef => true
  | JSBody.null => true
  | JSBody.str s => s == ""
  | JSBody.formData _ => false
  | JSBody.other _ => false

/-- The sole domain entity: one captured request. `timestamp` stands for the
`new Date()` taken at interception. -/
structure RequestRecord where
  method : String
  url : String
  headers : List (String × String)
  body : JSBody
  timestamp : Nat
deriving DecidableEq

/-- The shapes a `headers` option can take: a `Headers` instance (an
iterable header-collection whose entries live in internal slots, not own
enumerable properties), a plain key/value object, or a non-object primitive
value. -/
inductive HeadersVal where
  | collection (entries : List (String × String))
  | plain (entries : List (String × String))
  | primitive (s : String)
deriving DecidableEq

/-- `instanceof Headers`. -/
def HeadersVal.instanceofHeaders : HeadersVal → Bool
  | HeadersVal.collection _ => true
  | _ => false

/-- `typeof h === 'object'`: true for both object shapes, false for a
primitive. -/
def HeadersVal.typeofObject : HeadersVal → Bool
  | HeadersVal.collection _ => true
  | HeadersVal.plain _ => true
  | HeadersVal.primitive _ => false

/-- JS truthiness of a headers value: among the modelled values only the
empty string is falsy (`null`/`undefined` are the `none` of the option
field holding this value). -/
def HeadersVal.truthy : HeadersVal → Bool
  | HeadersVal.primitive s => !(s == "")
  | _ => true

/-- `Headers.prototype.forEach` enumeration of a collection's entries (the
source only reaches this on the `instanceof Headers` branch). -/
def HeadersVal.enumerated : HeadersVal → List (String × String)
  | HeadersVal.collection e => e
  | HeadersVal.plain e => e
  | HeadersVal.primitive _ => []

/-- Object spread of the value's own enumerable properties: a `Headers`
instance exposes none, a plain object exposes its entries (the source only
reaches this on the `typeof object` branch). -/
def HeadersVal.spreadOwn : HeadersVal → List (String × String)
  | HeadersVal.collection _ => []
  | HeadersVal.plain e => e
  | HeadersVal.primitive _ => []

/-- The options bag accepted by the wrapped fetch; `none` in a field models
an absent or undefined member. -/
structure FetchConfig where
  method : Option String
  headers : Option HeadersVal
  body : JSBody
deriving DecidableEq

/-- The first fetch argument: a URL string, a `Request` instance carrying a
`url` field, or some other object whose string conversion may fail (a
`none` conversion models a value with no usable `toString`). -/
inductive Resource where
  | str (s : String)
  | request (url : String)
  | obj (toStr : Option String)
deriving DecidableEq

/-- `resource.toString()`; failure propagates as a thrown error. -/
def Resource.toStringJS : Resource → Except Unit String
  | Resource.str s => Except.ok s
  | Resource.request _ => Except.ok "[object Request]"
  | Resource.obj (some s) => Except.ok s
  | Resource.obj none => Except.error ()

/-- Header normalization of the wrapped fetch: a truthy headers value that
is a `Headers` instance has its entries enumerated; otherwise a value of
object type is spread; anything else leaves the mapping empty. The
`instanceof Headers` check comes before the `typeof object` check. -/
def extractHeaders (config : Option FetchConfig) : List (String × String) :=
  match config with
  | none => []
  | some c =>
    match c.headers with
    | none => []
    | some h =>
      if h.truthy then
        if h.instanceofHeaders then h.enumerated
        else if h.typeofObject then h.spreadOwn
        else []
      else []

/-- `config?.method || 'GET'`: an absent bag, an absent field, or a falsy
method string (among strings, only the empty string) all yield `"GET"`. -/
def methodOf (config : Option FetchConfig) : String :=
  match config with
  | none => "GET"
  | some c =>
    match c.method with
    | none => "GET"
    | some m => if m == "" then "GET" else m

/-- `config?.body`: absent bag means an undefined body. -/
def bodyOf (config : Option FetchConfig) : JSBody :=
  match config with
  | none => JSBody.undef
  | some c => c.body

/-- URL resolution of the wrapped fetch: `resource.toString()` is computed
first, then overridden by `resource.url` when the resource is a `Request`
instance. A failing string conversion propagates. -/
def fullUrlOf (resource : Resource) : Except Unit String :=
  match resource.toStringJS with
  | Except.error e => Except.error e
  | Except.ok s =>
    match resource with
    | Resource.request url => Except.ok url
    | _ => Except.ok s

/-- Construction of the `requestDetails` record inside the wrapped fetch,
at clock reading `now`: header extraction, URL resolution, then the record
literal. A failure during URL stringification propagates. -/
def captureRecord (resource : Resource) (config : Option FetchConfig)
    (now : Nat) : Except Unit RequestRecord :=
  let headers := extractHeaders config
  match fullUrlOf resource with
  | Except.error e => Except.error e
  | Except.ok url =>
    Except.ok { method := methodOf config, url := url, headers := headers,
                body := bodyOf config, timestamp := now }

/-- Two spaces per indent level (`'  '.repeat indentLevel`). -/
def indentChars (indentLevel : Nat) : List Char :=
  List.replicate (2 * indentLevel) ' '

/-- One step of the HTML re-indenter's per-line loop: trim the line, skip it
when blank; otherwise decrement the indent counter (floored at zero, which
is what truncated subtraction gives) when the line starts with a
closing-tag marker, emit the line behind two spaces per level, and
increment the counter afterwards when the line opens a tag: starts with an
opening bracket, is not a closing tag, does not end self-closing, and
contains no closing marker. -/
def formatHtmlStep (acc : List Char × Nat) (raw : List Char) :
    List Char × Nat :=
  let line := trimChars raw
  if line.isEmpty then acc
  else
    let ind :=
      if startsL ['<', '/'] line then acc.2 - 1 else acc.2
    let out := acc.1 ++ indentChars ind ++ line ++ ['\n']
    let ind2 :=
      if startsL ['<'] line && !startsL ['<', '/'] line
          && !startsL ['>', '/'] line.reverse && !occursL ['<', '/'] line
      then ind + 1 else ind
    (out, ind2)

/-- The heuristic HTML pretty-printer: break between every adjacent
closing/opening bracket pair, split into lines, run the per-line loop from
an empty accumulator at indent zero, and trim the final text. -/
def formatHtml (html : String) : String :=
  String.mk
    (trimChars
      ((splitOnNL (insertBreaks html.data)).foldl formatHtmlStep ([], 0)).1)

/-- `formatBody`: a falsy body yields no body text; a string body that
trims to start and end with angle brackets goes through `formatHtml` and is
otherwise returned unchanged; a form-data body becomes one `key: value`
line per entry, newline-joined; any other value falls back to its string
conversion. -/
def formatBody (body : JSBody) : Option String :=
  if body.falsy then none
  else
    match body with
    | JSBody.str s =>
      if startsWithJS (jsTrim s) "<" && endsWithJS (jsTrim s) ">" then
        some (formatHtml s)
      else some s
    | JSBody.formData entries =>
      some (String.intercalate "\n"
        (entries.map (fun e => e.1 ++ ": " ++ e.2)))
    | JSBody.other t => some t
    | JSBody.undef => none
    | JSBody.null => none

/-- The HTTP wire-text composed by `render`: the request line, one line per
header in stored order when the mapping is non-empty, and — when the
formatted body is truthy — a blank line followed by the formatted body. -/
def httpMessage (r : RequestRecord) : String :=
  let base := r.method ++ " " ++ r.url ++ " HTTP/1.1"
  let withHeaders :=
    if r.headers.length > 0 then
      r.headers.foldl (fun acc kv => acc ++ "\n" ++ kv.1 ++ ": " ++ kv.2) base
    else base
  match formatBody r.body with
  | some fb => if fb == "" then withHeaders else withHeaders ++ "\n\n" ++ fb
  | none => withHeaders

/-- What `render` leaves in the container: the placeholder text with no
timestamp when no record is stored, otherwise the composed HTTP message
together with the displayed timestamp of the record. -/
def renderView (req : Option RequestRecord) : String × Option Nat :=
  match req with
  | none => ("No requests captured yet", none)
  | some r => (httpMessage r, some r.timestamp)

/-- The component: its single last-request slot and the rendered contents
of its container. -/
structure Display where
  lastRequest : Option RequestRecord
  container : String × Option Nat
deriving DecidableEq

/-- `render`: recompute the container contents from the stored slot; the
slot itself is read, never written. -/
def render (d : Display) : Display :=
  { d with container := renderView d.lastRequest }

/-- The component as the constructor leaves it: empty slot, rendered once. -/
def initialDisplay : Display :=
  render { lastRequest := none, container := ("", none) }

/-- The wrapped fetch at clock reading `now`: capture the record, store it
in the component's slot and re-render, then forward to the original fetch.
The result carries the updated component and the exact arguments the
original fetch is invoked with; a capture failure propagates instead. -/
def wrappedFetch (d : Display) (resource : Resource)
    (config : Option FetchConfig) (now : Nat) :
    Except Unit (Display × Resource × Option FetchConfig) :=
  match captureRecord resource config now with
  | Except.error e => Except.error e
  | Except.ok r =>
    Except.ok (render { d with lastRequest := some r }, resource, config)

/-- One XHR instance: the `_requestDetails` record attached by the wrapped
`open`, when any. -/
structure XHR where
  requestDetails : Option RequestRecord
deriving DecidableEq

/-- JS object property assignment on the header mapping: an existing name
is overwritten in place, a new name is appended. -/
def setHeaderJS (hs : List (String × String)) (name value : String) :
    List (String × String) :=
  if hs.any (fun p => p.1 == name) then
    hs.map (fun p => if p.1 == name then (p.1, value) else p)
  else hs ++ [(name, value)]

/-- The wrapped `open` at clock reading `now`: attach a fresh record with
empty headers, then forward the original arguments to the real open. -/
def xhrOpen (_x : XHR) (method url : String) (now : Nat) :
    XHR × (String × String) :=
  ({ requestDetails := some { method := method, url := url, headers := [],
                              body := JSBody.undef, timestamp := now } },
   (method, url))

/-- The wrapped `setRequestHeader`: write the header into the attached
record when one exists, then forward the original arguments to the real
setRequestHeader; without a record the write is dropped. -/
def xhrSetRequestHeader (x : XHR) (name value : String) :
    XHR × (String × String) :=
  (match x.requestDetails with
   | some r =>
     { requestDetails :=
         some { r with headers := setHeaderJS r.headers name value } }
   | none => x,
   (name, value))

/-- The wrapped `send`: when a record is attached, set its body and — when
a component is present in the document — store the record in that
component's slot and re-render; then forward the original body to the real
send. Without a record nothing is written. -/
def xhrSend (x : XHR) (body : JSBody) (component : Option Display) :
    XHR × Option Display × JSBody :=
  match x.requestDetails with
  | some r =>
    let r2 := { r with body := body }
    ({ requestDetails := some r2 },
     component.map (fun c => render { c with lastRequest := some r2 }),
     body)
  | none => (x, component, body)

/-! Theorems about the embedded program. -/

/-- C1 counterexample: at a resource whose string conversion fails, the
wrapped fetch propagates the capture failure and never reaches the forward
to the original fetch — the claim that the original fetch is always invoked
even when record construction fails is false on the code, which has no
guard around record construction. -/
theorem fetch_capture_failure_blocks_forward_cex :
    wrappedFetch initialDisplay (Resource.obj none) none 0
      = Except.error () := by
  rfl

/-- C1 (amended): whenever the wrapped fetch completes — that is, whenever
record capture did not fail — the original fetch is invoked with exactly
the original resource and options arguments, unmodified. -/
theorem fetch_forwards_original_args (d : Display) (resource : Resource)
    (config : Option FetchConfig) (now : Nat) (d2 : Display)
    (res2 : Resource) (cfg2 : Option FetchConfig)
    (hok : wrappedFetch d resource config now
      = Except.ok (d2, res2, cfg2)) :
    res2 = resource ∧ cfg2 = config := by
  cases hc : captureRecord resource config now with
  | error e => simp [wrappedFetch, hc] at hok
  | ok r =>
    simp only [wrappedFetch, hc, Except.ok.injEq, Prod.mk.injEq] at hok
    exact ⟨hok.2.1.symm, hok.2.2.symm⟩

/-- C1 witness: the amended theorem applied to a concrete successful call. -/
theorem fetch_forwards_original_args_witness :
    Resource.str "/api" = Resource.str "/api" ∧
      (none : Option FetchConfig) = none :=
  fetch_forwards_original_args initialDisplay (Resource.str "/api") none 0
    _ _ _ rfl

/-- C2: the wrapped fetch called with target "/api" and options method
POST, one header X-Test: 1, string body "hello" stores exactly that record
and renders the HTTP text of request line, one header line, blank line and
body, while forwarding the original arguments. -/
theorem fetch_post_scenario :
    wrappedFetch initialDisplay (Resource.str "/api")
        (some { method := some "POST",
                headers := some (HeadersVal.plain [("X-Test", "1")]),
                body := JSBody.str "hello" }) 0
      = Except.ok
          ({ lastRequest := some { method := "POST", url := "/api",
                                   headers := [("X-Test", "1")],
                                   body := JSBody.str "hello",
                                   timestamp := 0 },
             container := ("POST /api HTTP/1.1\nX-Test: 1\n\nhello",
                           some 0) },
           Resource.str "/api",
           some { method := some "POST",
                  headers := some (HeadersVal.plain [("X-Test", "1")]),
                  body := JSBody.str "hello" }) := by
  rfl

/-- C3: whenever the wrapped fetch captures a record from a call whose
options bag is absent or carries no method field, that record's method is
"GET". -/
theorem captured_method_defaults_to_GET (resource : Resource)
    (config : Option FetchConfig) (now : Nat) (r : RequestRecord)
    (hm : config = none ∨ ∃ c, config = some c ∧ c.method = none)
    (hr : captureRecord resource config now = Except.ok r) :
    r.method = "GET" := by
  cases hu : fullUrlOf resource with
  | error e => simp [captureRecord, hu] at hr
  | ok url =>
    simp only [captureRecord, hu, Except.ok.injEq] at hr
    subst hr
    rcases hm with h | ⟨c, hc, hcm⟩
    · subst h; rfl
    · subst hc; simp [methodOf, hcm]

/-- C3 witness: a concrete call with no options captures method "GET". -/
theorem captured_method_defaults_to_GET_witness :
    ({ method := "GET", url := "/x", headers := [], body := JSBody.undef,
       timestamp := 0 } : RequestRecord).method = "GET" :=
  captured_method_defaults_to_GET (Resource.str "/x") none 0 _
    (Or.inl rfl) rfl

/-- C4: header normalization enumerates a header-collection's entries,
copies a plain object's entries, and leaves any other headers value as an
empty mapping; a collection also has object type (so the collection check
coming first is what keeps it from being spread, which would yield nothing
since its entries are not own properties); under distinct input names both
accepted shapes capture exactly one entry per distinct name. -/
theorem extractHeaders_shapes (ce pe : List (String × String)) (s : String)
    (m : Option String) (b : JSBody)
    (hce : (ce.map Prod.fst).Nodup) (hpe : (pe.map Prod.fst).Nodup) :
    HeadersVal.typeofObject (HeadersVal.collection ce) = true ∧
    HeadersVal.spreadOwn (HeadersVal.collection ce) = [] ∧
    extractHeaders (some { method := m,
                           headers := some (HeadersVal.collection ce),
                           body := b }) = ce ∧
    extractHeaders (some { method := m,
                           headers := some (HeadersVal.plain pe),
                           body := b }) = pe ∧
    extractHeaders (some { method := m,
                           headers := some (HeadersVal.primitive s),
                           body := b }) = [] ∧
    ((extractHeaders (some { method := m,
                             headers := some (HeadersVal.collection ce),
                             body := b })).map Prod.fst).Nodup ∧
    ((extractHeaders (some { method := m,
                             headers := some (HeadersVal.plain pe),
                             body := b })).map Prod.fst).Nodup := by
  refine ⟨rfl, rfl, rfl, rfl, ?_, hce, hpe⟩
  by_cases hs : s = "" <;>
    simp [extractHeaders, HeadersVal.truthy, HeadersVal.instanceofHeaders,
          HeadersVal.typeofObject, hs]

/-- C4 witness: the normalization theorem at concrete collection, plain
and primitive header values. -/
theorem extractHeaders_shapes_witness :
    HeadersVal.typeofObject (HeadersVal.collection [("A", "1")]) = true ∧
    HeadersVal.spreadOwn (HeadersVal.collection [("A", "1")]) = [] ∧
    extractHeaders (some { method := none,
                           headers := some (HeadersVal.collection [("A", "1")]),
                           body := JSBody.undef }) = [("A", "1")] ∧
    extractHeaders (some { method := none,
                           headers := some (HeadersVal.plain [("X", "2")]),
                           body := JSBody.undef }) = [("X", "2")] ∧
    extractHeaders (some { method := none,
                           headers := some (HeadersVal.primitive "text"),
                           body := JSBody.undef }) = [] ∧
    ((extractHeaders (some { method := none,
                             headers := some (HeadersVal.collection [("A", "1")]),
                             body := JSBody.undef })).map Prod.fst).Nodup ∧
    ((extractHeaders (some { method := none,
                             headers := some (HeadersVal.plain [("X", "2")]),
                             body := JSBody.undef })).map Prod.fst).Nodup :=
  extractHeaders_shapes [("A", "1")] [("X", "2")] "text" none JSBody.undef
    (by decide) (by decide)

/-- C5 counterexample: the empty string is a string body that does not trim
to be bounded by angle brackets, yet formatBody returns no body text for it
(the empty string is falsy) rather than the string unchanged. -/
theorem formatBody_empty_string_cex :
    (startsWithJS (jsTrim "") "<" && endsWithJS (jsTrim "") ">") = false ∧
    formatBody (JSBody.str "") ≠ some "" := by
  constructor
  · rfl
  · decide

/-- C5 (amended): every non-empty string body that does not, after
trimming, both start with an opening and end with a closing angle bracket
is returned by formatBody unchanged. -/
theorem formatBody_plain_string_unchanged (s : String) (hne : s ≠ "")
    (hlt : (startsWithJS (jsTrim s) "<"
        && endsWithJS (jsTrim s) ">") = false) :
    formatBody (JSBody.str s) = some s := by
  simp [formatBody, JSBody.falsy, hne, hlt]

/-- C5 witness: the amended theorem at the concrete body "hello". -/
theorem formatBody_plain_string_unchanged_witness :
    formatBody (JSBody.str "hello") = some "hello" :=
  formatBody_plain_string_unchanged "hello" (by decide) (by decide)

/-- C6: formatHtml on a div wrapping a span produces exactly the three
lines of the opening div at indent zero, the one-line span at one
two-space indent level, and the closing div back at indent zero. -/
theorem formatHtml_div_span_scenario :
    formatHtml "<div><span>x</span></div>"
        = "<div>\n  <span>x</span>\n</div>" ∧
    linesOf (formatHtml "<div><span>x</span></div>")
        = ["<div>", "  <span>x</span>", "</div>"] := by
  constructor <;> rfl

/-- C7: the XHR sequence of open GET "/x", two header writes A: 1 then
B: 2, and send of a null body delivers a record with exactly those headers
in insertion order and a null body, renders the message without a body
section, and a null body indeed formats to nothing. -/
theorem xhr_scenario :
    xhrSend
        (xhrSetRequestHeader
          (xhrSetRequestHeader
            (xhrOpen { requestDetails := none } "GET" "/x" 5).1
            "A" "1").1
          "B" "2").1
        JSBody.null (some initialDisplay)
      = ({ requestDetails := some { method := "GET", url := "/x",
                                    headers := [("A", "1"), ("B", "2")],
                                    body := JSBody.null,
                                    timestamp := 5 } },
         some { lastRequest := some { method := "GET", url := "/x",
                                      headers := [("A", "1"), ("B", "2")],
                                      body := JSBody.null,
                                      timestamp := 5 },
                container := ("GET /x HTTP/1.1\nA: 1\nB: 2", some 5) },
         JSBody.null) ∧
    formatBody JSBody.null = none := by
  constructor <;> rfl

/-- C8: on an XHR object that never called open (so carries no record),
the wrapped setRequestHeader and send leave the object without a record,
change no component, and forward exactly the original arguments to the
real methods; no error is raised. -/
theorem xhr_without_open_noop (name value : String) (b : JSBody)
    (component : Option Display) :
    xhrSetRequestHeader { requestDetails := none } name value
        = ({ requestDetails := none }, (name, value)) ∧
    xhrSend { requestDetails := none } b component
        = ({ requestDetails := none }, component, b) := by
  constructor <;> rfl

/-- C9: for every stored state of the Display, rendering twice in
succession with no intervening capture leaves byte-identical container
contents both times, and rendering never changes the stored slot. -/
theorem render_idempotent (d : Display) :
    (render (render d)).container = (render d).container ∧
    (render d).lastRequest = d.lastRequest := by
  constructor <;> rfl

/-- C10: a method field that is present but falsy — the empty string —
still captures as "GET": the default applies to every falsy method. -/
theorem falsy_method_defaults_to_GET (resource : Resource)
    (hdrs : Option HeadersVal) (b : JSBody) (now : Nat) (r : RequestRecord)
    (hr : captureRecord resource
        (some { method := some "", headers := hdrs, body := b }) now
        = Except.ok r) :
    r.method = "GET" := by
  cases hu : fullUrlOf resource with
  | error e => simp [captureRecord, hu] at hr
  | ok url =>
    simp only [captureRecord, hu, Except.ok.injEq] at hr
    subst hr
    rfl

/-- C10 witness: a concrete call with an empty-string method captures
method "GET". -/
theorem falsy_method_defaults_to_GET_witness :
    ({ method := "GET", url := "/y", headers := [], body := JSBody.undef,
       timestamp := 1 } : RequestRecord).method = "GET" :=
  falsy_method_defaults_to_GET (Resource.str "/y") none JSBody.undef 1
    _ rfl

end NetworkLastRequest
